import Mathlib

/-!
Verification of the media-server reconciliation core (Plex provider adapter,
catalog synchronizer, webhook normalizer) against its natural-language
specification.  The definitions below are a shallow embedding of the Python
source files:

  app/modules/plex/plex.py        (class Plex)
  app/modules/plex/__init__.py    (class PlexModule)
  app/db/mediaserver_oper.py      (class MediaServerOper)
  app/chain/mediaserver.py        (class MediaServerChain)

Remote Plex server responses are modelled as oracle functions carried in a
record; Python truthiness of optional values is modelled explicitly
(None, 0 and the empty string are falsy).  Python strings are modelled as
Lean strings, with startswith / slicing expressed on the character list.
-/

set_option maxRecDepth 4096

/-! ## Python-semantics helpers -/

/-- Truthiness of a Python `Optional[str]`: `None` and `""` are falsy. -/
def pyTruthyOptStr : Option String → Bool
  | none => false
  | some s => s ≠ ""

/-- Truthiness of a Python `Optional[int]`: `None` and `0` are falsy. -/
def pyTruthyOptInt : Option Int → Bool
  | none => false
  | some t => t ≠ 0

/-- Python `str(x)` for an `Optional[str]`: `str(None)` is `"None"`. -/
def pyStrOpt : Option String → String
  | none => "None"
  | some s => s

/-- Python `str(x)` for an `Optional[int]`: `str(None)` is `"None"`. -/
def pyStrOptInt : Option Int → String
  | none => "None"
  | some t => toString t

/-- Python `s.startswith(pre)`, expressed on the character list. -/
def pyStartswith (s pre : String) : Bool :=
  pre.data.isPrefixOf s.data

/-- Python slicing `s[n:]`, expressed on the character list. -/
def pyDropStr (s : String) (n : Nat) : String :=
  ⟨s.data.drop n⟩

/-- Python slicing `s[:n]`, expressed on the character list. -/
def pyTakeStr (s : String) (n : Nat) : String :=
  ⟨s.data.take n⟩

/-- Python `len(s)` for a string (number of characters). -/
def pyLenStr (s : String) : Nat :=
  s.data.length

/-! ## Provider-native identifiers (`Plex.__get_ids`, plex.py lines 300-322)

A Plex guid entry is either a structured record (a dict with an `id` key, as
in webhook `Metadata.Guid` lists) or an object carrying an `id` attribute
(plexapi `Guid` objects).  Both expose one tagged string `<scheme>://<value>`.
-/

/-- A provider-native cross-reference identifier entry: structured dict or
attribute object, each exposing a tagged string. -/
inductive Guid where
  | dict (id : String)
  | obj (id : String)
deriving DecidableEq

/-- The tagged string carried by a guid entry (`guid['id']` or `guid.id`). -/
def Guid.gid : Guid → String
  | .dict s => s
  | .obj s => s

/-- The canonical external-id triple (`ExternalIds` in the spec). -/
structure ExternalIds where
  imdb_id : Option String
  tmdb_id : Option String
  tvdb_id : Option String
deriving DecidableEq

/-- One iteration of the guid loop body of `Plex.__get_ids`: test the three
scheme prefixes in mapping order (imdb, tmdb, tvdb) and on the first match
overwrite that scheme's slot with the value after the prefix (`break`). -/
def applyGuid (ids : ExternalIds) (g : Guid) : ExternalIds :=
  if pyStartswith g.gid "imdb://" then { ids with imdb_id := some (pyDropStr g.gid 7) }
  else if pyStartswith g.gid "tmdb://" then { ids with tmdb_id := some (pyDropStr g.gid 7) }
  else if pyStartswith g.gid "tvdb://" then { ids with tvdb_id := some (pyDropStr g.gid 7) }
  else ids

/-- `Plex.__get_ids`: fold the guid list over slots initialised to `None`. -/
def get_ids (guids : List Guid) : ExternalIds :=
  guids.foldl applyGuid ⟨none, none, none⟩

/-- First-match-wins resolver, following the words of the specification
(spec section 4.2): the first entry matching a scheme's prefix wins for that
scheme.  Stated for comparison with `get_ids`. -/
def firstMatchIds (guids : List Guid) : ExternalIds :=
  { imdb_id := (guids.find? (fun g => pyStartswith g.gid "imdb://")).map (fun g => pyDropStr g.gid 7)
    tmdb_id := (guids.find? (fun g => pyStartswith g.gid "tmdb://")).map (fun g => pyDropStr g.gid 7)
    tvdb_id := (guids.find? (fun g => pyStartswith g.gid "tvdb://")).map (fun g => pyDropStr g.gid 7) }

/-- Last-match value of a scheme prefix over a guid list: the value of the
last entry matching `pre`, or `none` when no entry matches.  Later entries
win over earlier ones. -/
def lastSchemeVal (pre : String) : List Guid → Option String
  | [] => none
  | g :: rest =>
      match lastSchemeVal pre rest with
      | some v => some v
      | none => if pyStartswith g.gid pre then some (pyDropStr g.gid pre.data.length) else none

/-! Mutual exclusivity of the three scheme prefixes: a tagged string starts
with at most one of them (their first characters differ). -/

theorem isPrefixOf_excl (c d : Char) (p q l : List Char) (hcd : c ≠ d) :
    (c :: p).isPrefixOf l = true → (d :: q).isPrefixOf l = false := by
  cases l with
  | nil => intro h; simp [List.isPrefixOf] at h
  | cons a as =>
      intro h
      simp only [List.isPrefixOf, Bool.and_eq_true, beq_iff_eq] at h
      simp only [List.isPrefixOf, Bool.and_eq_false_iff, beq_eq_false_iff_ne]
      exact Or.inl (by rw [← h.1]; exact fun hda => hcd (hda.symm))

theorem startswith_imdb_not_tmdb (s : String) :
    pyStartswith s "imdb://" = true → pyStartswith s "tmdb://" = false :=
  isPrefixOf_excl 'i' 't' "mdb://".data "mdb://".data s.data (by decide)

theorem startswith_imdb_not_tvdb (s : String) :
    pyStartswith s "imdb://" = true → pyStartswith s "tvdb://" = false :=
  isPrefixOf_excl 'i' 't' "mdb://".data "vdb://".data s.data (by decide)

theorem startswith_tmdb_not_imdb (s : String) :
    pyStartswith s "tmdb://" = true → pyStartswith s "imdb://" = false :=
  isPrefixOf_excl 't' 'i' "mdb://".data "mdb://".data s.data (by decide)

theorem isPrefixOf_excl2 (c d e : Char) (p q l : List Char) (hde : d ≠ e) :
    (c :: d :: p).isPrefixOf l = true → (c :: e :: q).isPrefixOf l = false := by
  cases l with
  | nil => intro h; simp [List.isPrefixOf] at h
  | cons a as =>
      intro h
      simp only [List.isPrefixOf, Bool.and_eq_true, beq_iff_eq] at h
      simp only [List.isPrefixOf, Bool.and_eq_false_iff, beq_eq_false_iff_ne]
      exact Or.inr (isPrefixOf_excl d e p q as hde h.2)

theorem startswith_tmdb_not_tvdb (s : String) :
    pyStartswith s "tmdb://" = true → pyStartswith s "tvdb://" = false :=
  isPrefixOf_excl2 't' 'm' 'v' "db://".data "db://".data s.data (by decide)

theorem startswith_tvdb_not_imdb (s : String) :
    pyStartswith s "tvdb://" = true → pyStartswith s "imdb://" = false :=
  isPrefixOf_excl 't' 'i' "vdb://".data "mdb://".data s.data (by decide)

theorem startswith_tvdb_not_tmdb (s : String) :
    pyStartswith s "tvdb://" = true → pyStartswith s "tmdb://" = false :=
  isPrefixOf_excl2 't' 'v' 'm' "db://".data "db://".data s.data (by decide)

/-- Fallback on an optional value: keep `x` when present, else `y`. -/
def optFallback (x y : Option String) : Option String :=
  match x with
  | some v => some v
  | none => y

theorem optFallback_none (x : Option String) : optFallback x none = x := by
  cases x <;> rfl

theorem get_ids_go_imdb (gs : List Guid) : ∀ acc : ExternalIds,
    (gs.foldl applyGuid acc).imdb_id =
      optFallback (lastSchemeVal "imdb://" gs) acc.imdb_id := by
  induction gs with
  | nil => intro acc; rfl
  | cons g rest ih =>
      intro acc
      simp only [List.foldl_cons, lastSchemeVal]
      rw [ih]
      cases hrest : lastSchemeVal "imdb://" rest with
      | some v => rfl
      | none =>
          cases h1 : pyStartswith g.gid "imdb://" with
          | true =>
              simp [optFallback, applyGuid, h1, show ("imdb://".data.length) = 7 from rfl]
          | false =>
              cases h2 : pyStartswith g.gid "tmdb://" with
              | true => simp [optFallback, applyGuid, h1, h2]
              | false =>
                  cases h3 : pyStartswith g.gid "tvdb://" with
                  | true => simp [optFallback, applyGuid, h1, h2, h3]
                  | false => simp [optFallback, applyGuid, h1, h2, h3]

theorem get_ids_go_tmdb (gs : List Guid) : ∀ acc : ExternalIds,
    (gs.foldl applyGuid acc).tmdb_id =
      optFallback (lastSchemeVal "tmdb://" gs) acc.tmdb_id := by
  induction gs with
  | nil => intro acc; rfl
  | cons g rest ih =>
      intro acc
      simp only [List.foldl_cons, lastSchemeVal]
      rw [ih]
      cases hrest : lastSchemeVal "tmdb://" rest with
      | some v => rfl
      | none =>
          cases h1 : pyStartswith g.gid "imdb://" with
          | true =>
              have h2 := startswith_imdb_not_tmdb g.gid h1
              simp [optFallback, applyGuid, h1, h2]
          | false =>
              cases h2 : pyStartswith g.gid "tmdb://" with
              | true =>
                  simp [optFallback, applyGuid, h1, h2, show ("tmdb://".data.length) = 7 from rfl]
              | false =>
                  cases h3 : pyStartswith g.gid "tvdb://" with
                  | true => simp [optFallback, applyGuid, h1, h2, h3]
                  | false => simp [optFallback, applyGuid, h1, h2, h3]

theorem get_ids_go_tvdb (gs : List Guid) : ∀ acc : ExternalIds,
    (gs.foldl applyGuid acc).tvdb_id =
      optFallback (lastSchemeVal "tvdb://" gs) acc.tvdb_id := by
  induction gs with
  | nil => intro acc; rfl
  | cons g rest ih =>
      intro acc
      simp only [List.foldl_cons, lastSchemeVal]
      rw [ih]
      cases hrest : lastSchemeVal "tvdb://" rest with
      | some v => rfl
      | none =>
          cases h1 : pyStartswith g.gid "imdb://" with
          | true =>
              have h2 := startswith_imdb_not_tvdb g.gid h1
              simp [optFallback, applyGuid, h1, h2]
          | false =>
              cases h2 : pyStartswith g.gid "tmdb://" with
              | true =>
                  have h3 := startswith_tmdb_not_tvdb g.gid h2
                  simp [optFallback, applyGuid, h1, h2, h3]
              | false =>
                  cases h3 : pyStartswith g.gid "tvdb://" with
                  | true =>
                      simp [optFallback, applyGuid, h1, h2, h3,
                        show ("tvdb://".data.length) = 7 from rfl]
                  | false => simp [optFallback, applyGuid, h1, h2, h3]

/-- Claim C3 as stated is false: for a mixed guid list carrying two entries
of the same scheme, `Plex.__get_ids` does not keep the first match.  On
`["tmdb://1", "tmdb://2"]` it returns tmdb value "2" (the later entry), while
the first-match resolver required by the claim returns "1". -/
theorem c3_counterexample :
    get_ids [Guid.dict "tmdb://1", Guid.obj "tmdb://2"] ≠
      firstMatchIds [Guid.dict "tmdb://1", Guid.obj "tmdb://2"] := by
  decide

/-- Claim C3 amended: for every input list of guid entries (structured or
prefixed strings, mixed), `Plex.__get_ids` assigns to each of the schemes
imdb, tmdb, tvdb the value of the LAST input entry whose tagged string
matches that scheme's prefix, and leaves a scheme `none` when no entry
matches it: a later matching entry replaces an earlier match. -/
theorem c3_amended_last_match_wins (gs : List Guid) :
    get_ids gs =
      ⟨lastSchemeVal "imdb://" gs, lastSchemeVal "tmdb://" gs, lastSchemeVal "tvdb://" gs⟩ := by
  have h1 := get_ids_go_imdb gs ⟨none, none, none⟩
  have h2 := get_ids_go_tmdb gs ⟨none, none, none⟩
  have h3 := get_ids_go_tvdb gs ⟨none, none, none⟩
  rw [optFallback_none] at h1 h2 h3
  have heta : get_ids gs =
      ⟨(get_ids gs).imdb_id, (get_ids gs).tmdb_id, (get_ids gs).tvdb_id⟩ := rfl
  rw [heta]
  rw [show (get_ids gs).imdb_id = (gs.foldl applyGuid ⟨none, none, none⟩).imdb_id from rfl, h1,
    show (get_ids gs).tmdb_id = (gs.foldl applyGuid ⟨none, none, none⟩).tmdb_id from rfl, h2,
    show (get_ids gs).tvdb_id = (gs.foldl applyGuid ⟨none, none, none⟩).tvdb_id from rfl, h3]

/-! ## Adapter health state (`Plex.__init__` / `Plex.is_inactive`, plex.py
lines 17-39, and `PlexModule.scheduler_job`, modules/plex/__init__.py
lines 26-32)

The adapter state is abstracted to the truthiness of its three attributes:
`_host` and `_token` (configuration present) and `_plex` (the last
connection attempt succeeded and the client object is set). -/

/-- Truthiness of the three attributes of a `Plex` adapter instance. -/
structure PlexConf where
  host : Bool
  token : Bool
  connected : Bool
deriving DecidableEq

/-- `Plex.is_inactive`: false when host or token is missing; otherwise true
exactly when the client object is unset (the connection attempt failed). -/
def Plex.is_inactive (c : PlexConf) : Bool :=
  if !c.host || !c.token then false else !c.connected

/-- `PlexModule.scheduler_job`: the periodic job replaces `self.plex` by a
fresh `Plex()` instance when `not self.plex.is_inactive()`, and keeps the
current instance otherwise. -/
def PlexModule.scheduler_job (current fresh : PlexConf) : PlexConf :=
  if !(Plex.is_inactive current) then fresh else current

/-- Claim C2 evaluated on the code: with host and token configured, an
adapter whose connection attempt failed reports `is_inactive = true`, yet
the periodic job KEEPS the dead instance; and a healthy connected adapter
reports `is_inactive = false`, yet the job REBUILDS it.  The rebuild
condition is the exact inverse of the claimed one. -/
theorem c2_scheduler_rebuild_inverted :
    Plex.is_inactive ⟨true, true, false⟩ = true ∧
    PlexModule.scheduler_job ⟨true, true, false⟩ ⟨true, true, true⟩ = ⟨true, true, false⟩ ∧
    Plex.is_inactive ⟨true, true, true⟩ = false ∧
    PlexModule.scheduler_job ⟨true, true, true⟩ ⟨true, true, false⟩ = ⟨true, true, false⟩ := by
  decide

/-! ## Remote catalog model (plexapi responses)

The remote Plex server is modelled as a record of oracle functions giving
the responses of the plexapi calls the adapter makes.  A `Video` is a
catalog object (movie or show) as returned by `library.search`,
`sectionByID(..).all()` or `fetchItem`. -/

/-- An episode object of a show (`video.episodes()` elements). -/
structure Episode where
  seasonNumber : Int
  index : Int
deriving DecidableEq

/-- A catalog video object (movie or show). -/
structure Video where
  title : Option String
  year : Option Int
  guids : List Guid
  episodes : List Episode
deriving DecidableEq

/-- The remote server: responses of the plexapi calls used by `Plex`.
`fetchItem` returns `none` when the lookup raises or misses. -/
structure PlexSrv where
  searchMovie : Option String → Option String → List Video
  searchShow : Option String → Option String → List Video
  sectionAll : String → List Video
  fetchItem : String → Option Video

/-! ## Movie existence search (`Plex.get_movies`, plex.py lines 131-162) -/

/-- Candidate assembly of `Plex.get_movies`: search by `(title, year)`,
extended by a second search by `(original_title, year)` when the original
title is set and textually differs from the title.  When `year` is falsy the
first search carries no year filter. -/
def movieCandidates (sv : PlexSrv) (title original_title year : Option String) : List Video :=
  if pyTruthyOptStr year then
    let movies := sv.searchMovie title year
    if pyTruthyOptStr original_title ∧ pyStrOpt original_title ≠ pyStrOpt title
    then movies ++ sv.searchMovie original_title year
    else movies
  else
    let movies := sv.searchMovie title none
    if pyTruthyOptStr original_title ∧ pyStrOpt original_title ≠ pyStrOpt title
    then movies ++ sv.searchMovie original_title year
    else movies

/-- The per-candidate filter of `Plex.get_movies`: when the `tmdb_id`
argument and the candidate's own parsed tmdb id are both truthy, keep the
candidate only when the two render to the same string; otherwise keep it. -/
def keepMovie (tmdb_id : Option Int) (m : Video) : Bool :=
  let mid := (get_ids m.guids).tmdb_id
  if pyTruthyOptInt tmdb_id && pyTruthyOptStr mid
  then pyStrOpt mid == pyStrOptInt tmdb_id
  else true

/-- The deduplicated and filtered candidate list of `Plex.get_movies`
(`for movie in set(movies)` with the `continue` guard). -/
def getMoviesFiltered (tmdb_id : Option Int) (movies : List Video) : List Video :=
  movies.dedup.filter (keepMovie tmdb_id)

/-- `Plex.get_movies`: `None` when the adapter holds no client, otherwise
the `{title, year}` projections of the surviving candidates. -/
def Plex.get_movies (srv : Option PlexSrv) (title original_title year : Option String)
    (tmdb_id : Option Int) : Option (List (Option String × Option Int)) :=
  match srv with
  | none => none
  | some sv =>
      some ((getMoviesFiltered tmdb_id (movieCandidates sv title original_title year)).map
        (fun m => (m.title, m.year)))

/-- Claim C4: with a (nonzero) `tmdb_id` supplied, `Plex.get_movies` excludes
every candidate whose own parsed tmdb id is present (non-empty) and differs
from the supplied id, and keeps every candidate that exposes no tmdb id at
all; the result is the title/year projection of exactly the surviving
candidates. -/
theorem c4_mismatch_excluded_absence_kept
    (sv : PlexSrv) (title original_title year : Option String) (t : Int) (ht : t ≠ 0)
    (m : Video) (hm : m ∈ movieCandidates sv title original_title year) :
    Plex.get_movies (some sv) title original_title year (some t) =
      some ((getMoviesFiltered (some t) (movieCandidates sv title original_title year)).map
        (fun v => (v.title, v.year))) ∧
    ((∃ s, (get_ids m.guids).tmdb_id = some s ∧ s ≠ "" ∧ s ≠ toString t) →
      m ∉ getMoviesFiltered (some t) (movieCandidates sv title original_title year)) ∧
    ((get_ids m.guids).tmdb_id = none →
      m ∈ getMoviesFiltered (some t) (movieCandidates sv title original_title year)) := by
  refine ⟨rfl, ?_, ?_⟩
  · rintro ⟨s, hs, hse, hsne⟩ hmem
    have hkeep := List.of_mem_filter hmem
    simp [keepMovie, hs, pyTruthyOptInt, pyTruthyOptStr, pyStrOpt, pyStrOptInt,
      ht, hse] at hkeep
    exact hsne hkeep
  · intro hnone
    refine List.mem_filter.mpr ⟨List.mem_dedup.mpr hm, ?_⟩
    simp [keepMovie, hnone, pyTruthyOptStr]

/-- A candidate exposing tmdb id 604. -/
def v604 : Video := ⟨some "The Matrix", some 1999, [Guid.obj "tmdb://604"], []⟩

/-- A candidate exposing no external ids at all. -/
def vNoId : Video := ⟨some "The Matrix", some 1999, [], []⟩

/-- A server whose movie search returns the two candidates above. -/
def svMovies : PlexSrv :=
  ⟨fun _ _ => [v604, vNoId], fun _ _ => [], fun _ => [], fun _ => none⟩

/-- Witness for C4 at the instance named by the claim: with `tmdb_id = 603`
the candidate exposing 604 is rejected and the candidate exposing no id is
accepted. -/
theorem c4_witness :
    v604 ∉ getMoviesFiltered (some 603)
        (movieCandidates svMovies (some "The Matrix") none (some "1999")) ∧
    vNoId ∈ getMoviesFiltered (some 603)
        (movieCandidates svMovies (some "The Matrix") none (some "1999")) :=
  ⟨(c4_mismatch_excluded_absence_kept svMovies (some "The Matrix") none (some "1999")
      603 (by decide) v604 (by decide)).2.1 ⟨"604", by decide, by decide, by decide⟩,
   (c4_mismatch_excluded_absence_kept svMovies (some "The Matrix") none (some "1999")
      603 (by decide) vNoId (by decide)).2.2 (by decide)⟩

/-! ## Episode lookup (`Plex.get_tv_episodes`, plex.py lines 164-206) -/

/-- Show resolution of `Plex.get_tv_episodes`: by the first native item id
when the id list is truthy, else by title/year search, retried once with the
original title when the first search is empty and the original title is
truthy and textually differs. -/
def resolveVideos (sv : PlexSrv) (item_ids : List String)
    (title original_title year : Option String) : List Video :=
  match item_ids with
  | i :: _ => sv.sectionAll i
  | [] =>
      let videos := sv.searchShow title year
      if videos = [] ∧ pyTruthyOptStr original_title ∧ pyStrOpt original_title ≠ pyStrOpt title
      then sv.searchShow original_title year
      else videos

/-- The `continue` guard of the episode loop: skip an episode when the
`season` argument is truthy and the episode's season number differs. -/
def skipEpisode (season : Option Int) (ep : Episode) : Bool :=
  match season with
  | none => false
  | some s => decide (s ≠ 0) && decide (ep.seasonNumber ≠ s)

/-- Append episode `e` under season key `s` in the insertion-ordered
season-to-episodes mapping (`season_episodes` dict). -/
def addEpisode (d : List (Int × List Int)) (s e : Int) : List (Int × List Int) :=
  if d.any (fun kv => kv.1 == s) then
    d.map (fun kv => if kv.1 == s then (kv.1, kv.2 ++ [e]) else kv)
  else d ++ [(s, [e])]

/-- One iteration of the episode loop of `Plex.get_tv_episodes`. -/
def seasonStep (season : Option Int) (d : List (Int × List Int)) (ep : Episode) :
    List (Int × List Int) :=
  if skipEpisode season ep then d else addEpisode d ep.seasonNumber ep.index

/-- The episode loop of `Plex.get_tv_episodes`: fold the show's episodes
into the season-to-episodes mapping. -/
def seasonFold (season : Option Int) (eps : List Episode) : List (Int × List Int) :=
  eps.foldl (seasonStep season) []

/-- The post-resolution part of `Plex.get_tv_episodes`: empty mapping on an
empty resolution; otherwise cross-check the first resolved show's own tmdb
id against the `tmdb_id` argument (a mismatch of two truthy ids returns the
empty mapping), then fold its episodes season by season. -/
def crossCheckEpisodes (tmdb_id season : Option Int) : List Video → List (Int × List Int)
  | [] => []
  | v :: _ =>
      let vid := (get_ids v.guids).tmdb_id
      if pyTruthyOptInt tmdb_id && pyTruthyOptStr vid
          && (pyStrOpt vid != pyStrOptInt tmdb_id)
      then []
      else seasonFold season v.episodes

/-- `Plex.get_tv_episodes`: empty mapping with no client, else resolve the
show and hand over to `crossCheckEpisodes`. -/
def Plex.get_tv_episodes (srv : Option PlexSrv) (item_ids : List String)
    (title original_title year : Option String) (tmdb_id : Option Int)
    (season : Option Int) : List (Int × List Int) :=
  match srv with
  | none => []
  | some sv =>
      crossCheckEpisodes tmdb_id season (resolveVideos sv item_ids title original_title year)

/-- Claim C5: when a (nonzero) `tmdb_id` is supplied and the resolved show
itself exposes a (non-empty) tmdb id differing from it, the whole lookup
returns the empty mapping — it neither falls through to the episode fold nor
fails; the conflict branch is a plain early return. -/
theorem c5_tmdb_conflict_aborts (sv : PlexSrv) (item_ids : List String)
    (title original_title year : Option String) (t : Int) (season : Option Int)
    (v : Video) (rest : List Video) (s : String)
    (hres : resolveVideos sv item_ids title original_title year = v :: rest)
    (hexp : (get_ids v.guids).tmdb_id = some s)
    (hs : s ≠ "") (ht : t ≠ 0) (hne : s ≠ toString t) :
    Plex.get_tv_episodes (some sv) item_ids title original_title year (some t) season = [] := by
  simp only [Plex.get_tv_episodes, hres]
  simp [crossCheckEpisodes, hexp, pyTruthyOptInt, pyTruthyOptStr, pyStrOpt, pyStrOptInt,
    ht, hs, hne]

/-- A show exposing tmdb id 604 with one season-1 episode. -/
def show604 : Video := ⟨some "Breaking", some 2008, [Guid.dict "tmdb://604"], [⟨1, 1⟩]⟩

/-- A server whose show search resolves to the show above. -/
def svShow604 : PlexSrv :=
  ⟨fun _ _ => [], fun _ _ => [show604], fun _ => [], fun _ => none⟩

/-- Witness for C5: requesting tmdb id 603 against the show exposing 604
yields the empty mapping. -/
theorem c5_witness :
    Plex.get_tv_episodes (some svShow604) [] (some "Breaking") none none (some 603) none = [] :=
  c5_tmdb_conflict_aborts svShow604 [] (some "Breaking") none none 603 none
    show604 [] "604" rfl (by decide) (by decide) (by decide) (by decide)

/-- Claim C6 as stated is false at season number 0: the season argument is
tested for Python truthiness, so `season=0` disables the filter entirely.
On a show holding episodes of seasons 0 and 1, the lookup with `season=0`
returns a mapping that also contains key 1. -/
def showSpecials : Video := ⟨some "S", some 2020, [], [⟨0, 1⟩, ⟨1, 1⟩]⟩

/-- A server whose show search resolves to `showSpecials`. -/
def svSpecials : PlexSrv :=
  ⟨fun _ _ => [], fun _ _ => [showSpecials], fun _ => [], fun _ => none⟩

/-- Counterexample to claim C6: with `season = 0` the returned mapping
contains the key 1, different from the given season number. -/
theorem c6_counterexample :
    (1, [1]) ∈ Plex.get_tv_episodes (some svSpecials) [] (some "S") none none none (some 0) ∧
    (1 : Int) ≠ 0 := by
  decide

theorem addEpisode_keys (s : Int) (d : List (Int × List Int))
    (hd : ∀ kv ∈ d, kv.1 = s) (e : Int) :
    ∀ kv ∈ addEpisode d s e, kv.1 = s := by
  intro kv hkv
  unfold addEpisode at hkv
  by_cases hin : d.any (fun kv => kv.1 == s) = true
  · rw [if_pos hin] at hkv
    obtain ⟨kv0, hkv0, heq⟩ := List.mem_map.mp hkv
    by_cases h0 : kv0.1 == s
    · rw [if_pos h0] at heq; rw [← heq]; exact hd kv0 hkv0
    · rw [if_neg h0] at heq; rw [← heq]; exact hd kv0 hkv0
  · rw [if_neg hin] at hkv
    rcases List.mem_append.mp hkv with h | h
    · exact hd kv h
    · rw [List.mem_singleton.mp h]

theorem seasonFold_go_keys (s : Int) (hs : s ≠ 0) (eps : List Episode) :
    ∀ d, (∀ kv ∈ d, kv.1 = s) →
      ∀ kv ∈ eps.foldl (seasonStep (some s)) d, kv.1 = s := by
  induction eps with
  | nil => intro d hd; exact hd
  | cons ep rest ih =>
      intro d hd
      simp only [List.foldl_cons]
      apply ih
      unfold seasonStep
      by_cases hskip : skipEpisode (some s) ep = true
      · rw [if_pos hskip]; exact hd
      · rw [if_neg hskip]
        have hsn : ep.seasonNumber = s := by
          unfold skipEpisode at hskip
          simp [hs] at hskip
          exact hskip
        rw [hsn]
        exact addEpisode_keys s d hd ep.index

/-- Claim C6 amended: for every NONZERO season number given as the `season`
argument, the mapping returned by `Plex.get_tv_episodes` contains at most
the key equal to that season number; a season argument of 0 is falsy in
Python and disables the filter. -/
theorem c6_amended_nonzero_season_only_key (srv : Option PlexSrv) (item_ids : List String)
    (title original_title year : Option String) (tmdb_id : Option Int)
    (s : Int) (hs : s ≠ 0) (k : Int) (l : List Int)
    (hk : (k, l) ∈ Plex.get_tv_episodes srv item_ids title original_title year tmdb_id (some s)) :
    k = s := by
  match srv with
  | none => simp [Plex.get_tv_episodes] at hk
  | some sv =>
      simp only [Plex.get_tv_episodes] at hk
      cases hres : resolveVideos sv item_ids title original_title year with
      | nil => rw [hres] at hk; simp [crossCheckEpisodes] at hk
      | cons v rest =>
          rw [hres] at hk
          simp only [crossCheckEpisodes] at hk
          by_cases hc : (pyTruthyOptInt tmdb_id && pyTruthyOptStr (get_ids v.guids).tmdb_id
              && (pyStrOpt (get_ids v.guids).tmdb_id != pyStrOptInt tmdb_id)) = true
          · rw [if_pos hc] at hk; simp at hk
          · rw [if_neg hc] at hk
            exact seasonFold_go_keys s hs v.episodes [] (by intro kv h; simp at h) (k, l) hk

/-- Witness for C6 amended: season 2 on a show with seasons 1-3 yields only
the season-2 entries. -/
def showThreeSeasons : Video :=
  ⟨some "T", some 2020, [], [⟨1, 1⟩, ⟨2, 5⟩, ⟨2, 6⟩, ⟨3, 1⟩]⟩

/-- A server whose show search resolves to `showThreeSeasons`. -/
def svThreeSeasons : PlexSrv :=
  ⟨fun _ _ => [], fun _ _ => [showThreeSeasons], fun _ => [], fun _ => none⟩

theorem c6_witness :
    (2 : Int) ≠ 0 ∧
    (2, [5, 6]) ∈ Plex.get_tv_episodes (some svThreeSeasons) [] (some "T") none none none (some 2) ∧
    (2 : Int) = 2 :=
  ⟨by decide, by decide,
    c6_amended_nonzero_season_only_key (some svThreeSeasons) [] (some "T") none none none
      2 (by decide) 2 [5, 6] (by decide)⟩

/-! ## Library path resolution and refresh
(`Plex.__find_librarie` and `Plex.refresh_library_by_items`, plex.py lines
229-284)

Filesystem paths are modelled as the component lists of resolved absolute
paths (`Path.resolve().parts` without the root entry); `is_subpath` is the
component-prefix test of the source, and `str(path)` renders the components
with a leading separator. -/

/-- `str()` of a resolved absolute path. -/
def pathStr (p : List String) : String :=
  "/" ++ String.intercalate "/" p

theorem pathStr_ne_empty (p : List String) : pathStr p ≠ "" := by
  intro h
  have hd : (pathStr p).data = '/' :: (String.intercalate "/" p).data := rfl
  rw [h] at hd
  exact List.noConfusion hd

/-- A library section: native key and configured root locations. -/
structure Library where
  key : String
  locations : List (List String)
deriving DecidableEq

/-- A refresh target (`RefreshMediaItem`): only `target_path` is read. -/
structure RefreshItem where
  target_path : Option (List String)
deriving DecidableEq

/-- The inner location loop of `Plex.__find_librarie`: first root location
owning the path (component-prefix test, `is_subpath`) wins and yields
`(lib.key, str(path))`. -/
def findInLocations (p : List String) (key : String) : List (List String) → Option (String × String)
  | [] => none
  | loc :: rest =>
      if loc.isPrefixOf p then some (key, pathStr p) else findInLocations p key rest

/-- The outer library loop of `Plex.__find_librarie`: first library with a
truthy location list owning the path wins; `("", "")` when none does. -/
def findLibGo (p : List String) : List Library → String × String
  | [] => ("", "")
  | lib :: rest =>
      if lib.locations ≠ [] then
        match findInLocations p lib.key lib.locations with
        | some r => r
        | none => findLibGo p rest
      else findLibGo p rest

/-- `Plex.__find_librarie`: `("", "")` for a `None` path, else the first
owning library. -/
def find_librarie (path : Option (List String)) (libs : List Library) : String × String :=
  match path with
  | none => ("", "")
  | some p => findLibGo p libs

theorem findInLocations_shape (p : List String) (key : String) (locs : List (List String)) :
    ∀ r, findInLocations p key locs = some r → r = (key, pathStr p) := by
  induction locs with
  | nil => intro r h; exact Option.noConfusion h
  | cons loc rest ih =>
      intro r h
      unfold findInLocations at h
      by_cases hp : loc.isPrefixOf p = true
      · rw [if_pos hp] at h; exact (Option.some.injEq _ _ ▸ h).symm ▸ rfl
      · rw [if_neg hp] at h; exact ih r h

theorem findLibGo_shape (p : List String) (libs : List Library) :
    findLibGo p libs = ("", "") ∨ ∃ k, findLibGo p libs = (k, pathStr p) := by
  induction libs with
  | nil => exact Or.inl rfl
  | cons lib rest ih =>
      unfold findLibGo
      by_cases hl : lib.locations ≠ []
      · rw [if_pos hl]
        cases hf : findInLocations p lib.key lib.locations with
        | none => exact ih
        | some r =>
            right
            exact ⟨lib.key, by rw [findInLocations_shape p lib.key lib.locations r hf]⟩
      · rw [if_neg hl]; exact ih

theorem find_librarie_shape (path : Option (List String)) (libs : List Library) :
    find_librarie path libs = ("", "") ∨
      ∃ p k, path = some p ∧ find_librarie path libs = (k, pathStr p) := by
  match path with
  | none => exact Or.inl rfl
  | some p =>
      rcases findLibGo_shape p libs with h | ⟨k, h⟩
      · exact Or.inl h
      · exact Or.inr ⟨p, k, rfl, h⟩

theorem find_librarie_snd_ne (path : Option (List String)) (libs : List Library)
    (h : find_librarie path libs ≠ ("", "")) :
    (find_librarie path libs).2 ≠ "" := by
  rcases find_librarie_shape path libs with hs | ⟨p, k, _, hs⟩
  · exact absurd hs h
  · rw [hs]; exact pathStr_ne_empty p

/-! The insertion-ordered string dictionary (`result_dict`): assignment
updates an existing key in place or appends a fresh key at the end. -/

/-- Python dict assignment `d[k] = v` on an insertion-ordered entry list. -/
def dinsert : List (String × String) → String → String → List (String × String)
  | [], k, v => [(k, v)]
  | kv :: rest, k, v => if kv.1 == k then (k, v) :: rest else kv :: dinsert rest k v

/-- Python dict lookup `d[k]` on an insertion-ordered entry list. -/
def dlookup : List (String × String) → String → Option String
  | [], _ => none
  | kv :: rest, k => if kv.1 == k then some kv.2 else dlookup rest k

theorem dinsert_keys (d : List (String × String)) (k v : String) :
    ∀ p, p ∈ (dinsert d k v).map Prod.fst ↔ p = k ∨ p ∈ d.map Prod.fst := by
  induction d with
  | nil => intro p; simp [dinsert]
  | cons kv rest ih =>
      intro p
      unfold dinsert
      by_cases hk : kv.1 == k
      · rw [if_pos hk]
        have : kv.1 = k := by simpa using hk
        simp [this]
      · rw [if_neg hk]
        simp [ih p]
        tauto

theorem dinsert_keysND (d : List (String × String)) (k v : String)
    (h : (d.map Prod.fst).Nodup) : ((dinsert d k v).map Prod.fst).Nodup := by
  induction d with
  | nil => simp [dinsert]
  | cons kv rest ih =>
      unfold dinsert
      simp only [List.map_cons, List.nodup_cons] at h
      by_cases hk : kv.1 == k
      · rw [if_pos hk]
        have hkv : kv.1 = k := by simpa using hk
        simp only [List.map_cons, List.nodup_cons]
        exact ⟨by rw [← hkv]; exact h.1, h.2⟩
      · rw [if_neg hk]
        simp only [List.map_cons, List.nodup_cons]
        refine ⟨?_, ih h.2⟩
        intro hin
        rcases (dinsert_keys rest k v kv.1).mp hin with heq | hin0
        · exact absurd (by simpa using heq : (kv.1 == k) = true) hk
        · exact h.1 hin0

theorem dlookup_dinsert_self (d : List (String × String)) (k v : String) :
    dlookup (dinsert d k v) k = some v := by
  induction d with
  | nil => simp [dinsert, dlookup]
  | cons kv rest ih =>
      unfold dinsert
      by_cases hk : kv.1 == k
      · rw [if_pos hk]; simp [dlookup]
      · rw [if_neg hk]; unfold dlookup; rw [if_neg hk]; exact ih

theorem dlookup_dinsert_other (d : List (String × String)) (k v p : String) (hp : p ≠ k) :
    dlookup (dinsert d k v) p = dlookup d p := by
  induction d with
  | nil =>
      have hf : ((k, v).1 == p) = false := by
        simp only [beq_eq_false_iff_ne]
        exact fun h => hp h.symm
      simp [dinsert, dlookup, hf]
  | cons kv rest ih =>
      unfold dinsert
      by_cases hk : kv.1 == k
      · rw [if_pos hk]
        have hkv : kv.1 = k := by simpa using hk
        unfold dlookup
        rw [if_neg (by simpa using fun h => hp h.symm), if_neg (by simpa [hkv] using fun h => hp h.symm)]
      · rw [if_neg hk]
        unfold dlookup
        by_cases hkp : kv.1 == p
        · rw [if_pos hkp, if_pos hkp]
        · rw [if_neg hkp, if_neg hkp]; exact ih

theorem dlookup_mem (d : List (String × String)) (p k : String)
    (h : dlookup d p = some k) : (p, k) ∈ d := by
  induction d with
  | nil => exact Option.noConfusion h
  | cons kv rest ih =>
      unfold dlookup at h
      by_cases hk : (kv.1 == p) = true
      · rw [if_pos hk] at h
        have h1 : kv.1 = p := by simpa using hk
        have h2 : kv.2 = k := by simpa using h
        exact List.mem_cons.mpr (Or.inl (by rw [← h1, ← h2]))
      · rw [if_neg hk] at h
        exact List.mem_cons.mpr (Or.inr (ih h))

theorem mem_dlookup (d : List (String × String)) (p k : String)
    (hnd : (d.map Prod.fst).Nodup) (h : (p, k) ∈ d) : dlookup d p = some k := by
  induction d with
  | nil => exact absurd h (List.not_mem_nil _)
  | cons kv rest ih =>
      simp only [List.map_cons, List.nodup_cons] at hnd
      rcases List.mem_cons.mp h with heq | hmem
      · rw [← heq]
        unfold dlookup
        rw [if_pos (by simp)]
      · unfold dlookup
        by_cases hk : (kv.1 == p) = true
        · exfalso
          have h1 : kv.1 = p := by simpa using hk
          apply hnd.1
          rw [h1]
          exact List.mem_map.mpr ⟨(p, k), hmem, rfl⟩
        · rw [if_neg hk]
          exact ih hnd.2 hmem

theorem keys_dlookup (d : List (String × String)) (p : String)
    (h : p ∈ d.map Prod.fst) : ∃ k, dlookup d p = some k := by
  induction d with
  | nil => simp at h
  | cons kv rest ih =>
      unfold dlookup
      by_cases hk : (kv.1 == p) = true
      · rw [if_pos hk]; exact ⟨kv.2, rfl⟩
      · rw [if_neg hk]
        apply ih
        simp only [List.map_cons, List.mem_cons] at h
        rcases h with heq | h0
        · exact absurd (by simpa using heq.symm : (kv.1 == p) = true) hk
        · exact h0

/-- The dictionary-building loop of `Plex.refresh_library_by_items`:
`result_dict[path] = lib_key` for each refresh target. -/
def buildRefreshDict (libs : List Library) (items : List RefreshItem) : List (String × String) :=
  items.foldl (fun d it =>
    dinsert d (find_librarie it.target_path libs).2 (find_librarie it.target_path libs).1) []

theorem buildDict_go_keysND (libs : List Library) (its : List RefreshItem) :
    ∀ d : List (String × String), (d.map Prod.fst).Nodup →
      ((its.foldl (fun d it => dinsert d (find_librarie it.target_path libs).2
        (find_librarie it.target_path libs).1) d).map Prod.fst).Nodup := by
  induction its with
  | nil => intro d h; exact h
  | cons it rest ih =>
      intro d h
      simp only [List.foldl_cons]
      exact ih _ (dinsert_keysND _ _ _ h)

theorem buildDict_go_keys (libs : List Library) (its : List RefreshItem) :
    ∀ (d : List (String × String)) (p : String),
      p ∈ ((its.foldl (fun d it => dinsert d (find_librarie it.target_path libs).2
          (find_librarie it.target_path libs).1) d).map Prod.fst) ↔
        p ∈ d.map Prod.fst ∨ ∃ it ∈ its, (find_librarie it.target_path libs).2 = p := by
  induction its with
  | nil => intro d p; simp
  | cons it rest ih =>
      intro d p
      simp only [List.foldl_cons]
      rw [ih]
      rw [dinsert_keys]
      constructor
      · rintro ((heq | hm) | ⟨it0, h0, hs⟩)
        · exact Or.inr ⟨it, List.mem_cons_self _ _, heq.symm⟩
        · exact Or.inl hm
        · exact Or.inr ⟨it0, List.mem_cons_of_mem _ h0, hs⟩
      · rintro (h | ⟨it0, h0, hs⟩)
        · exact Or.inl (Or.inr h)
        · rcases List.mem_cons.mp h0 with heq | h0r
          · rw [heq] at hs
            exact Or.inl (Or.inl hs.symm)
          · exact Or.inr ⟨it0, h0r, hs⟩

theorem buildDict_go_lookup (libs : List Library) (Q : String → String → Prop)
    (its : List RefreshItem) :
    ∀ d : List (String × String),
      (∀ p k, dlookup d p = some k → Q k p) →
      (∀ it ∈ its, Q (find_librarie it.target_path libs).1 (find_librarie it.target_path libs).2) →
      ∀ p k, dlookup (its.foldl (fun d it => dinsert d (find_librarie it.target_path libs).2
        (find_librarie it.target_path libs).1) d) p = some k → Q k p := by
  induction its with
  | nil => intro d hd _ p k h; exact hd p k h
  | cons it rest ih =>
      intro d hd hits p k h
      simp only [List.foldl_cons] at h
      refine ih _ ?_ (fun it0 h0 => hits it0 (List.mem_cons_of_mem _ h0)) p k h
      intro p0 k0 hl
      by_cases hp : p0 = (find_librarie it.target_path libs).2
      · rw [hp, dlookup_dinsert_self] at hl
        have hk0 : k0 = (find_librarie it.target_path libs).1 := by
          simpa using hl.symm
        rw [hp, hk0]
        exact hits it (List.mem_cons_self _ _)
      · rw [dlookup_dinsert_other _ _ _ _ hp] at hl
        exact hd p0 k0 hl

/-- The outcome of `Plex.refresh_library_by_items`: no-op without a client,
one whole-catalog refresh, or one targeted `(library key, path)` refresh
call per dictionary entry, in insertion order. -/
inductive RefreshResult where
  | noop
  | whole
  | targeted (calls : List (String × String))
deriving DecidableEq

/-- `Plex.refresh_library_by_items`: resolve each target path, collapse into
the path-keyed dictionary, and fall back to one whole-catalog refresh when
any resolution failed (key `""` present); otherwise issue one targeted
refresh per entry. -/
def Plex.refresh_library_by_items (srv : Option PlexSrv) (items : List RefreshItem)
    (libs : List Library) : RefreshResult :=
  match srv with
  | none => .noop
  | some _ =>
      let d := buildRefreshDict libs items
      if d.any (fun kv => kv.1 == "") then .whole
      else .targeted (d.map (fun kv => (kv.2, kv.1)))

theorem any_key_empty (d : List (String × String)) :
    (d.any (fun kv => kv.1 == "")) = true ↔ "" ∈ d.map Prod.fst := by
  simp only [List.any_eq_true, List.mem_map, beq_iff_eq]

/-- Claim C1: for a batch of refresh targets, one failing resolution
(`("", "")`) forces the single whole-catalog refresh; when every target
resolves, the adapter issues exactly one targeted refresh call per distinct
(library key, path) pair — the emitted call list is duplicate-free and holds
precisely the resolved pairs.  The consistency hypothesis states that the
resolver assigns at most one library per rendered path within the batch,
which holds since the resolver is a function of the path. -/
theorem c1_refresh_fallback_policy (sv : PlexSrv) (items : List RefreshItem)
    (libs : List Library)
    (hcons : ∀ it1 ∈ items, ∀ it2 ∈ items,
      (find_librarie it1.target_path libs).2 = (find_librarie it2.target_path libs).2 →
      (find_librarie it1.target_path libs).1 = (find_librarie it2.target_path libs).1) :
    ((∃ it ∈ items, find_librarie it.target_path libs = ("", "")) →
      Plex.refresh_library_by_items (some sv) items libs = .whole) ∧
    ((∀ it ∈ items, find_librarie it.target_path libs ≠ ("", "")) →
      ∃ calls, Plex.refresh_library_by_items (some sv) items libs = .targeted calls ∧
        calls.Nodup ∧
        ∀ kp : String × String, kp ∈ calls ↔
          ∃ it ∈ items, find_librarie it.target_path libs = kp) := by
  have hkeys := buildDict_go_keys libs items ([] : List (String × String))
  have hND : ((buildRefreshDict libs items).map Prod.fst).Nodup :=
    buildDict_go_keysND libs items [] (by simp)
  constructor
  · rintro ⟨it, hit, hf⟩
    have hk : "" ∈ (buildRefreshDict libs items).map Prod.fst := by
      rw [buildRefreshDict, hkeys ""]
      exact Or.inr ⟨it, hit, by rw [hf]⟩
    simp only [Plex.refresh_library_by_items]
    rw [if_pos ((any_key_empty _).mpr hk)]
  · intro hall
    have hke : "" ∉ (buildRefreshDict libs items).map Prod.fst := by
      rw [buildRefreshDict, hkeys ""]
      rintro (h | ⟨it, hit, hs⟩)
      · simp at h
      · exact find_librarie_snd_ne it.target_path libs (hall it hit) hs
    refine ⟨(buildRefreshDict libs items).map (fun kv => (kv.2, kv.1)), ?_, ?_, ?_⟩
    · simp only [Plex.refresh_library_by_items]
      rw [if_neg (fun h => hke ((any_key_empty _).mp h))]
    · refine List.Nodup.map ?_ (List.Nodup.of_map Prod.fst hND)
      intro a b h
      cases a; cases b
      simp only [Prod.mk.injEq] at h ⊢
      exact ⟨h.2, h.1⟩
    · intro kp
      constructor
      · intro hin
        rcases List.mem_map.mp hin with ⟨kv, hkv, heq⟩
        have hlk : dlookup (buildRefreshDict libs items) kv.1 = some kv.2 :=
          mem_dlookup _ _ _ hND (by rw [show (kv.1, kv.2) = kv from rfl]; exact hkv)
        have hq := buildDict_go_lookup libs
          (fun k p => ∃ it ∈ items, find_librarie it.target_path libs = (k, p)) items []
          (by intro p k h; exact absurd h (by simp [dlookup]))
          (fun it hit => ⟨it, hit, rfl⟩) kv.1 kv.2 hlk
        rw [← heq]
        exact hq
      · rintro ⟨it, hit, hf⟩
        have hk : kp.2 ∈ (buildRefreshDict libs items).map Prod.fst := by
          rw [buildRefreshDict, hkeys kp.2]
          exact Or.inr ⟨it, hit, by rw [hf]⟩
        rcases keys_dlookup _ _ hk with ⟨k0, hlk⟩
        have hq := buildDict_go_lookup libs
          (fun k p => ∃ it ∈ items, find_librarie it.target_path libs = (k, p)) items []
          (by intro p k h; exact absurd h (by simp [dlookup]))
          (fun it0 hit0 => ⟨it0, hit0, rfl⟩) kp.2 k0 hlk
        rcases hq with ⟨it2, hit2, hf2⟩
        have hsnd : (find_librarie it2.target_path libs).2 = (find_librarie it.target_path libs).2 := by
          rw [hf2, hf]
        have hfst := hcons it2 hit2 it hit hsnd
        rw [hf] at hfst
        rw [hf2] at hfst
        have hk0 : k0 = kp.1 := hfst
        rw [hk0] at hlk
        have hmem := dlookup_mem _ _ _ hlk
        exact List.mem_map.mpr ⟨(kp.2, kp.1), hmem, rfl⟩

/-- A server stub (refresh dispatch does not read server responses). -/
def svEmpty : PlexSrv := ⟨fun _ _ => [], fun _ _ => [], fun _ => [], fun _ => none⟩

/-- A show library rooted at `/data/tv`. -/
def libTV : Library := ⟨"7", [["data", "tv"]]⟩

/-- Two targets below `/data/tv`. -/
def itemsResolved : List RefreshItem :=
  [⟨some ["data", "tv", "ShowA"]⟩, ⟨some ["data", "tv", "ShowB"]⟩]

/-- The same two targets plus one outside every configured root. -/
def itemsMixed : List RefreshItem :=
  [⟨some ["data", "tv", "ShowA"]⟩, ⟨some ["data", "tv", "ShowB"]⟩, ⟨some ["media", "other"]⟩]

/-- Witness for C1 at the instance named by the claim: two resolvable paths
and one unresolvable path yield the single whole-catalog refresh, while the
two resolvable paths alone yield duplicate-free targeted calls of exactly
the resolved pairs. -/
theorem c1_witness :
    Plex.refresh_library_by_items (some svEmpty) itemsMixed [libTV] = .whole ∧
    (∃ calls, Plex.refresh_library_by_items (some svEmpty) itemsResolved [libTV] = .targeted calls ∧
      calls.Nodup ∧
      ∀ kp : String × String, kp ∈ calls ↔
        ∃ it ∈ itemsResolved, find_librarie it.target_path [libTV] = kp) :=
  ⟨(c1_refresh_fallback_policy svEmpty itemsMixed [libTV] (by decide)).1
      ⟨⟨some ["media", "other"]⟩, by decide, by decide⟩,
   (c1_refresh_fallback_policy svEmpty itemsResolved [libTV] (by decide)).2 (by decide)⟩

/-! ## Item lookup and existence decision
(`Plex.get_iteminfo`, plex.py lines 286-298, and `PlexModule.media_exists`,
modules/plex/__init__.py lines 44-78) -/

/-- The `ProviderIds` record returned by `Plex.get_iteminfo`. -/
structure ItemInfo where
  tmdb : Option String
  imdb : Option String
deriving DecidableEq

/-- `Plex.get_iteminfo`: `{}` (modelled `none`) without a client or when the
fetch raises or misses; otherwise the ProviderIds record, which is truthy
even when both inner ids are absent. -/
def Plex.get_iteminfo (srv : Option PlexSrv) (itemid : String) : Option ItemInfo :=
  match srv with
  | none => none
  | some sv =>
      match sv.fetchItem itemid with
      | none => none
      | some it => some ⟨(get_ids it.guids).tmdb_id, (get_ids it.guids).imdb_id⟩

/-- The two media types distinguished by `media_exists`. -/
inductive MediaType where
  | movie
  | tv
deriving DecidableEq

/-- The fields of `MediaInfo` read by `PlexModule.media_exists`. -/
structure MediaInfoM where
  mtype : MediaType
  title : Option String
  original_title : Option String
  year : Option String
  tmdb_id : Option Int
deriving DecidableEq

/-- The `ExistMediaInfo` result record. -/
structure ExistMediaInfo where
  mtype : MediaType
  seasons : Option (List (Int × List Int))
deriving DecidableEq

/-- `PlexModule.media_exists`: for movies, any listed item id whose direct
`get_iteminfo` lookup returns a truthy record is existence proof; only
otherwise is the title/year search (with its tmdb cross-check) consulted.
For shows, delegate to the episode lookup. -/
def PlexModule.media_exists (srv : Option PlexSrv) (mi : MediaInfoM)
    (itemid : List String) : Option ExistMediaInfo :=
  match mi.mtype with
  | .movie =>
      if itemid.any (fun i => (Plex.get_iteminfo srv i).isSome) then
        some ⟨.movie, none⟩
      else
        match Plex.get_movies srv mi.title mi.original_title mi.year mi.tmdb_id with
        | none => none
        | some movies => if movies = [] then none else some ⟨.movie, none⟩
  | .tv =>
      let tvs := Plex.get_tv_episodes srv itemid mi.title mi.original_title mi.year mi.tmdb_id none
      if tvs = [] then none else some ⟨.tv, some tvs⟩

/-- Claim C10: for a movie query carrying known item ids, one successful
direct `get_iteminfo` lookup is returned as existence proof.  No hypothesis
relates the supplied `mi.tmdb_id` to the fetched item's own exposed ids: the
tmdb cross-check lives only on the search path. -/
theorem c10_direct_id_hit_bypasses_tmdb_check (sv : PlexSrv) (mi : MediaInfoM)
    (itemid : List String) (i : String) (hi : i ∈ itemid)
    (hmov : mi.mtype = MediaType.movie)
    (info : ItemInfo) (hhit : Plex.get_iteminfo (some sv) i = some info) :
    PlexModule.media_exists (some sv) mi itemid = some ⟨MediaType.movie, none⟩ := by
  unfold PlexModule.media_exists
  rw [hmov]
  rw [if_pos (List.any_eq_true.mpr ⟨i, hi, by rw [hhit]; rfl⟩)]

/-- A server whose only direct item lookup returns the candidate exposing
tmdb id 604. -/
def sv604Fetch : PlexSrv :=
  ⟨fun _ _ => [], fun _ _ => [], fun _ => [], fun i => if i = "41" then some v604 else none⟩

/-- A movie query supplying tmdb id 603 (different from the item's 604). -/
def miMatrix : MediaInfoM := ⟨.movie, some "The Matrix", none, some "1999", some 603⟩

/-- Witness for C10: the direct lookup of item "41" (exposing tmdb 604)
proves existence even though the query asked for tmdb 603. -/
theorem c10_witness :
    PlexModule.media_exists (some sv604Fetch) miMatrix ["41"] = some ⟨MediaType.movie, none⟩ ∧
    Plex.get_iteminfo (some sv604Fetch) "41" = some ⟨some "604", none⟩ ∧
    miMatrix.tmdb_id = some 603 :=
  ⟨c10_direct_id_hit_bypasses_tmdb_check sv604Fetch miMatrix ["41"] "41" (by decide) rfl
      ⟨some "604", none⟩ (by decide),
   by decide, rfl⟩

/-! ## Catalog store and synchronization
(`MediaServerOper.add`, db/mediaserver_oper.py lines 18-26, and
`MediaServerChain.sync`, chain/mediaserver.py lines 54-96) -/

/-- A catalog row (`MediaServerItem` db model): the fields the claims read.
The sync loop tags every row with the active server. -/
structure Row where
  server : String
  item_id : String
  seasoninfo : List (Int × List Int)
deriving DecidableEq

/-- Modelled from the spec: `MediaServerItem.get_by_itemid` (db model, not
under src/) looks a row up by its item id — the caller passes only
`kwargs.get("item_id")`; spec section 6 names the operation family
`insertIfAbsent`. -/
def get_by_itemid (store : List Row) (item_id : String) : Option Row :=
  store.find? (fun r => r.item_id == item_id)

/-- `MediaServerOper.add`: create the row only when `get_by_itemid` finds
nothing; a duplicate is dropped, never overwritten.  Returns the new store
and whether an insert happened. -/
def MediaServerOper.add (store : List Row) (r : Row) : List Row × Bool :=
  match get_by_itemid store r.item_id with
  | some _ => (store, false)
  | none => (store ++ [r], true)

/-- Modelled from the spec: `MediaServerItem.empty` (db model, not under
src/) erases all rows tagged with the given server (spec section 4.5 step 2,
`eraseAll(server)`). -/
def MediaServerOper.empty (store : List Row) (server : String) : List Row :=
  store.filter (fun r => ¬ r.server == server)

/-- A media-server item as yielded to the sync loop (`MediaServerItem`
schema): native id (possibly absent or falsy) and provider type tag. -/
structure MSItem where
  item_id : Option String
  item_type : String
deriving DecidableEq

/-- A library entry as listed to the sync loop. -/
structure MSLibrary where
  id : String
  name : String
deriving DecidableEq

/-- Modelled from the spec: `ChainBase.run_module` (app/chain/__init__.py,
absent from src/) wraps every module-method invocation in try/except, logs
a fault and degrades it to `None` — a module fault never propagates into
the sync cycle (spec sections 4.5.4 and 7; corroborated in src by
`self.episodes(item.item_id) or []`). -/
def run_module {α : Type} : Except Unit α → Option α
  | .error _ => none
  | .ok a => some a

/-- The collaborators of one sync cycle: the library listing, each
library's raw item enumeration, and the raw per-show episode lookup (a
module method's outcome: its value, or `Except.error` when the module body
raises, e.g. inside `Plex.get_tv_episodes`, which wraps no try/except
around its plexapi calls).  The chain consumes both only through
`run_module`. -/
structure ChainEnv where
  librarys : List MSLibrary
  items : String → Except Unit (List MSItem)
  episodes : String → Except Unit (List (Int × List Int))

/-- Outcome of one sync cycle: final store, whether the independent db
session was closed, and the names of the libraries whose pass completed. -/
structure SyncOutcome where
  store : List Row
  closed : Bool
  processed : List String
deriving DecidableEq

/-- The inner item loop of `MediaServerChain.sync`: skip items with a falsy
id; for show-tagged items call the episode lookup through the chain
(`self.episodes(item.item_id) or []` — a module fault degrades to `None`
at the `run_module` boundary and `or []` turns falsy results into the
empty season map); insert through `MediaServerOper.add`. -/
def syncItems (env : ChainEnv) (server : String) :
    List MSItem → List Row → List Row
  | [], store => store
  | it :: rest, store =>
      if pyTruthyOptStr it.item_id then
        let iid := pyStrOpt it.item_id
        if it.item_type == "Series" || it.item_type == "show" then
          let seasons := (run_module (env.episodes iid)).getD []
          syncItems env server rest (MediaServerOper.add store ⟨server, iid, seasons⟩).1
        else
          syncItems env server rest (MediaServerOper.add store ⟨server, iid, []⟩).1
      else syncItems env server rest store

/-- The outer library loop of `MediaServerChain.sync`: process libraries in
order.  An enumeration fault never reaches the loop — the adapter's
generator swallows transport errors and yields falsy sentinels, and the
chain-call boundary degrades a module fault to `None` — so a faulty
library contributes no items and the remaining libraries still run; the
session is closed after the last library. -/
def syncLibs (env : ChainEnv) (server : String) :
    List MSLibrary → List Row → List String → SyncOutcome
  | [], store, processed => ⟨store, true, processed⟩
  | lib :: rest, store, processed =>
      let its := (run_module (env.items lib.id)).getD []
      syncLibs env server rest (syncItems env server its store) (processed ++ [lib.name])

/-- `MediaServerChain.sync`: open the independent session, erase the active
server's rows, repopulate from all libraries, close the session at the end
of the loop; module faults are degraded below the loop, so the loop itself
always completes. -/
def MediaServerChain.sync (env : ChainEnv) (server : String) (store0 : List Row) : SyncOutcome :=
  syncLibs env server env.librarys (MediaServerOper.empty store0 server) []

/-- The store is the given base plus a suffix of freshly inserted rows with
pairwise-distinct item ids. -/
def StoreExt (base st : List Row) : Prop :=
  ∃ ins, st = base ++ ins ∧ ins.Pairwise (fun a b => a.item_id ≠ b.item_id)

theorem add_inserted (store : List Row) (r : Row)
    (h : (MediaServerOper.add store r).2 = true) :
    (∀ x ∈ store, x.item_id ≠ r.item_id) ∧
      (MediaServerOper.add store r).1 = store ++ [r] := by
  cases hf : get_by_itemid store r.item_id with
  | some x => simp [MediaServerOper.add, hf] at h
  | none =>
      refine ⟨?_, by simp [MediaServerOper.add, hf]⟩
      intro x hx
      unfold get_by_itemid at hf
      have := List.find?_eq_none.mp hf x hx
      simpa using this

theorem add_dropped (store : List Row) (r : Row)
    (h : (MediaServerOper.add store r).2 = false) :
    (MediaServerOper.add store r).1 = store := by
  cases hf : get_by_itemid store r.item_id with
  | some x => simp [MediaServerOper.add, hf]
  | none => simp [MediaServerOper.add, hf] at h

theorem add_pres_ext (base store : List Row) (r : Row) (h : StoreExt base store) :
    StoreExt base (MediaServerOper.add store r).1 := by
  cases hb : (MediaServerOper.add store r).2 with
  | false => rw [add_dropped store r hb]; exact h
  | true =>
      obtain ⟨hnew, heq⟩ := add_inserted store r hb
      obtain ⟨ins, hst, hpw⟩ := h
      refine ⟨ins ++ [r], by rw [heq, hst, List.append_assoc], ?_⟩
      rw [List.pairwise_append]
      refine ⟨hpw, List.pairwise_singleton _ _, ?_⟩
      intro a ha b hb2
      rw [List.mem_singleton.mp hb2]
      exact hnew a (by rw [hst]; exact List.mem_append_right _ ha)

theorem syncItems_pres_ext (env : ChainEnv) (server : String) (its : List MSItem) :
    ∀ store base, StoreExt base store →
      StoreExt base (syncItems env server its store) := by
  induction its with
  | nil => intro store base h; exact h
  | cons it rest ih =>
      intro store base h
      unfold syncItems
      by_cases hid : pyTruthyOptStr it.item_id = true
      · rw [if_pos hid]
        by_cases hty : (it.item_type == "Series" || it.item_type == "show") = true
        · rw [if_pos hty]
          exact ih _ base (add_pres_ext base store _ h)
        · rw [if_neg hty]
          exact ih _ base (add_pres_ext base store _ h)
      · rw [if_neg hid]
        exact ih store base h

theorem syncLibs_pres_ext (env : ChainEnv) (server : String) (libs : List MSLibrary) :
    ∀ store processed base, StoreExt base store →
      StoreExt base (syncLibs env server libs store processed).store := by
  induction libs with
  | nil => intro store processed base h; exact h
  | cons lib rest ih =>
      intro store processed base h
      unfold syncLibs
      exact ih _ _ base (syncItems_pres_ext env server _ store base h)

/-- Claim C7: the rows a sync cycle inserts on top of the emptied store have
pairwise-distinct `(server, item_id)` keys; `MediaServerOper.add` inserts
only when no stored row shares the key (it checks the item id, which is
stronger), and a duplicate arriving later is dropped without touching the
stored row. -/
theorem c7_sync_dedup (env : ChainEnv) (server : String) (store0 : List Row)
    (store : List Row) (r : Row) (hins : (MediaServerOper.add store r).2 = true)
    (store2 : List Row) (r2 : Row) :
    (∃ ins, (MediaServerChain.sync env server store0).store =
        MediaServerOper.empty store0 server ++ ins ∧
        ins.Pairwise (fun a b => ¬(a.server = b.server ∧ a.item_id = b.item_id))) ∧
    ((∀ x ∈ store, ¬(x.server = r.server ∧ x.item_id = r.item_id)) ∧
      (MediaServerOper.add store r).1 = store ++ [r]) ∧
    ((MediaServerOper.add store2 r2).2 = false →
      (MediaServerOper.add store2 r2).1 = store2) := by
  refine ⟨?_, ?_, add_dropped store2 r2⟩
  · have hext : StoreExt (MediaServerOper.empty store0 server)
        (MediaServerChain.sync env server store0).store := by
      unfold MediaServerChain.sync
      exact syncLibs_pres_ext env server env.librarys _ [] _ ⟨[], by simp, List.Pairwise.nil⟩
    obtain ⟨ins, heq, hpw⟩ := hext
    exact ⟨ins, heq, hpw.imp (fun hne hk => hne hk.2)⟩
  · obtain ⟨hnew, heq⟩ := add_inserted store r hins
    exact ⟨fun x hx hk => hnew x hx hk.2, heq⟩

/-- A one-library environment with one movie item, for the C7 witness. -/
def envOne : ChainEnv :=
  ⟨[⟨"1", "L1"⟩], fun _ => .ok [⟨some "m1", "movie"⟩], fun _ => .ok []⟩

/-- Witness for C7: a concrete cycle plus a concrete fresh insert and a
concrete dropped duplicate. -/
theorem c7_witness :
    (∃ ins, (MediaServerChain.sync envOne "plex" []).store =
        MediaServerOper.empty [] "plex" ++ ins ∧
        ins.Pairwise (fun a b => ¬(a.server = b.server ∧ a.item_id = b.item_id))) ∧
    ((∀ x ∈ ([] : List Row), ¬(x.server = "plex" ∧ x.item_id = "m1")) ∧
      (MediaServerOper.add [] ⟨"plex", "m1", []⟩).1 = [] ++ [⟨"plex", "m1", []⟩]) ∧
    ((MediaServerOper.add [⟨"plex", "m1", []⟩] ⟨"plex", "m1", [(1, [2])]⟩).2 = false →
      (MediaServerOper.add [⟨"plex", "m1", []⟩] ⟨"plex", "m1", [(1, [2])]⟩).1 =
        [⟨"plex", "m1", []⟩]) :=
  c7_sync_dedup envOne "plex" [] [] ⟨"plex", "m1", []⟩ (by decide)
    [⟨"plex", "m1", []⟩] ⟨"plex", "m1", [(1, [2])]⟩

theorem syncLibs_complete (env : ChainEnv) (server : String) (libs : List MSLibrary) :
    ∀ store processed,
      (syncLibs env server libs store processed).closed = true ∧
      (syncLibs env server libs store processed).processed =
        processed ++ libs.map (fun l => l.name) := by
  induction libs with
  | nil =>
      intro store processed
      exact ⟨rfl, by simp [syncLibs]⟩
  | cons lib rest ih =>
      intro store processed
      unfold syncLibs
      refine ⟨(ih _ _).1, ?_⟩
      rw [(ih _ _).2]
      simp

/-- Claim C8: a module-level exception from one library's item enumeration
or from an episode lookup is caught at the chain-call boundary
(`run_module`) and degraded to a falsy result, so the remaining libraries
are still processed and the storage session is closed at the end of the
cycle regardless; the loop itself never aborts.  (A fault in session
setup/teardown, outside the loop, is out of the claim's antecedent.) -/
theorem c8_module_fault_isolated (env : ChainEnv) (server : String) (store0 : List Row)
    (lib : MSLibrary) (hlib : lib ∈ env.librarys)
    (hfault : env.items lib.id = Except.error () ∨ ∃ i, env.episodes i = Except.error ()) :
    (MediaServerChain.sync env server store0).closed = true ∧
    (MediaServerChain.sync env server store0).processed =
      env.librarys.map (fun l => l.name) := by
  unfold MediaServerChain.sync
  have h := syncLibs_complete env server env.librarys (MediaServerOper.empty store0 server) []
  simpa using h

/-- Two libraries; the first holds a show whose episode lookup raises, the
second a movie. -/
def envFail : ChainEnv :=
  ⟨[⟨"1", "L1"⟩, ⟨"2", "L2"⟩],
   fun id => if id = "1" then .ok [⟨some "s1", "show"⟩] else .ok [⟨some "m2", "movie"⟩],
   fun _ => .error ()⟩

/-- Witness for C8: with library L1's episode lookup raising, both
libraries are still processed, the session is closed, and both the show
row (with an empty season map) and library L2's movie row land in the
store. -/
theorem c8_witness :
    (⟨"1", "L1"⟩ : MSLibrary) ∈ envFail.librarys ∧
    (envFail.items "1" = Except.error () ∨ ∃ i, envFail.episodes i = Except.error ()) ∧
    ((MediaServerChain.sync envFail "plex" []).closed = true ∧
      (MediaServerChain.sync envFail "plex" []).processed = ["L1", "L2"]) ∧
    (⟨"plex", "s1", []⟩ : Row) ∈ (MediaServerChain.sync envFail "plex" []).store ∧
    (⟨"plex", "m2", []⟩ : Row) ∈ (MediaServerChain.sync envFail "plex" []).store :=
  ⟨by decide, Or.inr ⟨"s1", rfl⟩,
   c8_module_fault_isolated envFail "plex" [] ⟨"1", "L1"⟩ (by decide) (Or.inr ⟨"s1", rfl⟩),
   by decide, by decide⟩

/-! ## Webhook parsing (`Plex.get_webhook_message`, plex.py lines 356-514) -/

/-- The `Metadata` sub-object fields the parser reads. -/
structure PlexMeta where
  mtype : Option String
  grandparentTitle : Option String
  parentIndex : Option Int
  index : Option Int
  title : Option String
  year : Option Int
  ratingKey : Option String
  summary : Option String
deriving DecidableEq

/-- The `Player` sub-object fields the parser reads. -/
structure PlexPlayer where
  publicAddress : Option String
  title : Option String
deriving DecidableEq

/-- The `Account` sub-object fields the parser reads. -/
structure PlexAccount where
  title : Option String
deriving DecidableEq

/-- A parsed webhook message: top-level `event` plus optional sub-objects. -/
structure PlexMessage where
  event : Option String
  metadata : Option PlexMeta
  player : Option PlexPlayer
  account : Option PlexAccount
deriving DecidableEq

/-- Result of `json.loads` on the form's payload string. -/
inductive Payload where
  | invalid
  | valid (msg : PlexMessage)
deriving DecidableEq

/-- The request form: at most a `payload` field.  `none` covers a missing
or empty payload string (both falsy). -/
structure PlexForm where
  payload : Option Payload
deriving DecidableEq

/-- The canonical webhook event record (`WebhookEventInfo` schema). -/
structure WebhookEventInfo where
  event : String
  channel : String
  item_type : Option String
  item_name : Option String
  item_id : Option String
  season_id : Option Int
  episode_id : Option Int
  overview : Option String
  ip : Option String
  client : Option String
  device_name : Option String
  user_name : Option String
  image_url : Option String
deriving DecidableEq

/-- A Python exception escaping the parser. -/
inductive PyErr where
  | typeError
deriving DecidableEq

deriving instance DecidableEq for Except

/-- The `Metadata` block of `Plex.get_webhook_message`.  The episode branch
guards the summary (`if summary and len(summary) > 100`); the movie/show
branch calls `len(summary)` unguarded, so a missing summary raises a
TypeError (`len(None)`). -/
def applyMeta (e : WebhookEventInfo) : Option PlexMeta → Except PyErr WebhookEventInfo
  | none => .ok e
  | some md =>
      if md.mtype == some "episode" then
        let name := pyStrOpt md.grandparentTitle ++ " S" ++ pyStrOptInt md.parentIndex
          ++ "E" ++ pyStrOptInt md.index ++ " " ++ pyStrOpt md.title
        let ov := if pyTruthyOptStr md.summary ∧ pyLenStr (pyStrOpt md.summary) > 100
          then some (pyTakeStr (pyStrOpt md.summary) 100 ++ "...")
          else md.summary
        .ok { e with item_type := some "TV"
                     item_name := some name
                     item_id := md.ratingKey
                     season_id := md.parentIndex
                     episode_id := md.index
                     overview := ov }
      else
        let ty := if md.mtype == some "movie" then "MOV" else "SHOW"
        let name := pyStrOpt md.title ++ " (" ++ pyStrOptInt md.year ++ ")"
        match md.summary with
        | none => .error .typeError
        | some s =>
            let ov := if pyLenStr s > 100 then some (pyTakeStr s 100 ++ "...") else some s
            .ok { e with item_type := some ty
                         item_name := some name
                         item_id := md.ratingKey
                         overview := ov }

/-- The `Player` block: ip and client from the player, and a single blank
space as device name so later rendering never sees `None`. -/
def applyPlayer (e : WebhookEventInfo) : Option PlexPlayer → WebhookEventInfo
  | none => e
  | some p => { e with ip := p.publicAddress, client := p.title, device_name := some " " }

/-- The `Account` block: user name from the account title. -/
def applyAccount (e : WebhookEventInfo) : Option PlexAccount → WebhookEventInfo
  | none => e
  | some a => { e with user_name := a.title }

/-- The artwork block: one best-effort backdrop lookup when an item id was
resolved; the lookup itself never raises (`get_remote_image_by_id` catches
everything and returns `None`). -/
def applyImage (art : String → Option String) (e : WebhookEventInfo) : WebhookEventInfo :=
  if pyTruthyOptStr e.item_id then { e with image_url := art (pyStrOpt e.item_id) } else e

/-- `Plex.get_webhook_message`: fail soft (`None`) on a missing form,
missing or unparsable payload, or missing/empty event type; otherwise build
the event record through the Metadata, Player, Account and artwork blocks.
The Metadata block can raise (`Except.error`). -/
def Plex.get_webhook_message (art : String → Option String) (form : Option PlexForm) :
    Except PyErr (Option WebhookEventInfo) :=
  match form with
  | none => .ok none
  | some f =>
      match f.payload with
      | none => .ok none
      | some .invalid => .ok none
      | some (.valid msg) =>
          match msg.event with
          | none => .ok none
          | some ev =>
              if ev = "" then .ok none
              else
                match applyMeta
                    ⟨ev, "plex", none, none, none, none, none, none, none, none, none,
                      none, none⟩ msg.metadata with
                | .error err => .error err
                | .ok e1 =>
                    .ok (some (applyImage art (applyAccount (applyPlayer e1 msg.player)
                      msg.account)))

/-- A movie playback payload whose `Metadata` carries no summary. -/
def msgNoSummary : PlexMessage :=
  ⟨some "media.play",
   some ⟨some "movie", none, none, none, some "X", some 2020, some "40294", none⟩,
   none, none⟩

/-- The representative episode scrobble payload of the spec. -/
def msgEpisode : PlexMessage :=
  ⟨some "media.scrobble",
   some ⟨some "episode", some "Show", some 1, some 6, some "Ep", none, some "40294", some "sum"⟩,
   none, none⟩

/-- Claim C9 evaluated on the code: the parser is NOT total.  On a movie
payload whose Metadata lacks a summary, the movie/show branch evaluates
`len(None)` and a TypeError escapes, where the claim requires an event or
`None`.  The fail-soft `None` cases (missing form, payload, parse failure,
missing event type) and a well-formed episode payload behave as claimed. -/
theorem c9_movie_without_summary_raises :
    Plex.get_webhook_message (fun _ => none) (some ⟨some (.valid msgNoSummary)⟩) =
      .error PyErr.typeError ∧
    Plex.get_webhook_message (fun _ => none) none = .ok none ∧
    Plex.get_webhook_message (fun _ => none) (some ⟨none⟩) = .ok none ∧
    Plex.get_webhook_message (fun _ => none) (some ⟨some .invalid⟩) = .ok none ∧
    Plex.get_webhook_message (fun _ => none)
      (some ⟨some (.valid ⟨none, none, none, none⟩)⟩) = .ok none ∧
    Plex.get_webhook_message (fun _ => none) (some ⟨some (.valid msgEpisode)⟩) =
      .ok (some ⟨"media.scrobble", "plex", some "TV", some "Show S1E6 Ep", some "40294",
        some 1, some 6, some "sum", none, none, none, none, none⟩) := by
  decide
